import Mathlib

/-!
Shallow embedding of the SeleniumProbes library.

The embedding models, from the source:
  * `selenium_probes/probes/probe_abstract.py` — `ProbeAbstract` (`run`,
    `_update_metrics`, the `metrics` property);
  * `selenium_probes/probes/probe_page.py` — `ProbePage.run`;
  * `selenium_probes/probes/probe_form.py` — `ProbeForm.run`;
  * `selenium_probes/helpers/browser.py` — `Browser.__init__`,
    `check_title`, `check_url`;
  * `selenium_probes/helpers/vault.py` — `AzureKeyVault.__init__`,
    `get_secret`, `set_secret`.

The remote Selenium WebDriver is an external collaborator; its responses
are modelled by a `BrowserEnv` oracle (whether navigation raises, whether
the page-load wait succeeds, the current title/URL, which input names
resolve to elements, whether the submit locator resolves, whether the
click times out, and the post-submit page state).  Wall-clock readings
(`time.time()`) are modelled by a stream `clock : Nat → Int` of successive
readings, consumed in call order; timestamps are integers.  A Python call
that can let an exception escape is modelled with `Except PyError`.
-/

/-- A Python exception escaping a modelled call. -/
inductive PyError where
  | valueError
  | attributeError
  | unboundLocalError
deriving DecidableEq, Repr

/-- One metrics record, as assembled by `ProbeAbstract._update_metrics`:
`success`, `timestamp_start`, `timestamp_finish` and the stored
`duration = finish - start`. -/
structure MetricsRecord where
  success : Bool
  timestamp_start : Int
  timestamp_finish : Int
  duration : Int
deriving DecidableEq, Repr

/-- The `_probe_metrics` dictionary: insertion-ordered map from action tag
to record, as a key-value list. -/
abbrev Metrics := List (String × MetricsRecord)

/-- Python `d.update({k: v})` on an insertion-ordered dict: replace the
value in place when the key is present, append otherwise. -/
def dictInsert {α : Type} : List (String × α) → String → α → List (String × α)
  | [], k, v => [(k, v)]
  | (k0, v0) :: rest, k, v =>
    if k0 = k then (k, v) :: rest else (k0, v0) :: dictInsert rest k v

/-- Python `d[k]` lookup on the key-value list (first match). -/
def dictLookup {α : Type} : List (String × α) → String → Option α
  | [], _ => none
  | (k0, v0) :: rest, k => if k0 = k then some v0 else dictLookup rest k

/-- `ProbeAbstract._update_metrics(tag, start, finish, success)`: build the
record (with `duration = finish - start`) and `update` the metrics dict. -/
def update_metrics (metrics : Metrics) (tag : String) (start finish : Int)
    (success : Bool) : Metrics :=
  dictInsert metrics tag
    { success := success
      timestamp_start := start
      timestamp_finish := finish
      duration := finish - start }

/-- The `"init"` action tag of `ProbeAbstract.run`. -/
def tagInit : String := "init"

/-- The `"page_load"` action tag of `ProbePage.run`. -/
def tagPageLoad : String := "page_load"

/-- The `"form_submit"` action tag of `ProbeForm.run`. -/
def tagFormSubmit : String := "form_submit"

/-- Python `needle in haystack` on strings, on the character lists:
true iff `needle` occurs contiguously in the haystack. -/
def listContains (needle : List Char) : List Char → Bool
  | [] => needle.isEmpty
  | c :: rest => needle.isPrefixOf (c :: rest) || listContains needle rest

/-- Python `needle in haystack` for `String`. -/
def strContains (haystack needle : String) : Bool :=
  listContains needle.toList haystack.toList

/-- Responses of the remote Selenium WebDriver during one probe run. -/
structure BrowserEnv where
  /-- `webdriver.get(url)` returns normally (no Timeout/WebDriverException). -/
  navigateOk : Bool
  /-- result of `wait_for_page_to_load()` after navigation. -/
  waitOk : Bool
  /-- `webdriver.title` at the page-load checks. -/
  title : String
  /-- `webdriver.current_url` at the page-load checks. -/
  url : String
  /-- whether `find_element_by_name(name)` finds an element. -/
  fieldExists : String → Bool
  /-- whether `find_element_by_xpath(submit_element)` finds an element. -/
  submitExists : Bool
  /-- `click()` on the submit element returns (no TimeoutException). -/
  clickOk : Bool
  /-- result of `wait_for_page_to_load()` after the click. -/
  waitOk2 : Bool
  /-- `webdriver.title` at the post-submit checks. -/
  title2 : String
  /-- `webdriver.current_url` at the post-submit checks. -/
  url2 : String

/-- `Browser.check_title(expected_title)`: `True` when the argument is
`None`; otherwise `expected_title in self._browser.title`. -/
def check_title (expected_title : Option String) (title : String) : Bool :=
  match expected_title with
  | none => true
  | some e => strContains title e

/-- `Browser.check_url(expected_url)`: `True` when the argument is `None`;
otherwise `expected_url in self._browser.current_url`. -/
def check_url (expected_url : Option String) (url : String) : Bool :=
  match expected_url with
  | none => true
  | some e => strContains url e

/-- `Browser.__init__(se_endpoint, se_capabilities, page_load_timeout)`.
`browserName` is `se_capabilities["browserName"]`; `connectOk` models
whether `Remote(...)` succeeds.  The code binds `opts` only under
`if browserName == "chrome"` / `elif browserName == "firefox"`, then runs
`opts.headless = True` outside any try block, so any other browser name
raises `UnboundLocalError` out of the constructor.  For a bound `opts`,
a failing `Remote(...)` is caught by `except Exception` and leaves
`self._browser = None`; on success the handle is the live session. -/
def browserConstruct (browserName : String) (connectOk : Bool) :
    Except PyError (Option Unit) :=
  if browserName = "chrome" ∨ browserName = "firefox" then
    if connectOk then Except.ok (some ()) else Except.ok none
  else
    Except.error PyError.unboundLocalError

/-- Constructor parameters of `ProbeAbstract`. -/
structure ProbeAbstractCfg where
  probe_name : String := "noname"
  probe_timeout : Nat := 10

/-- Constructor parameters of `ProbePage`. -/
structure ProbePageCfg extends ProbeAbstractCfg where
  url : String := ""
  expected_title : Option String := none
  expected_url : Option String := none

/-- Constructor parameters of `ProbeForm`.  `input_params` defaults to
`None` in the source. -/
structure ProbeFormCfg extends ProbePageCfg where
  input_params : Option (List (String × String)) := none
  submit_element : String := "//input[@type='submit']"
  post_submit_title : Option String := none
  post_submit_url : Option String := none

/-- `ProbeAbstract.run(browser)`: read `time()` twice, always succeed, and
record the `"init"` metrics.  Returns (result, new metrics, next clock
position). -/
def probeAbstractRun (clock : Nat → Int) (metrics : Metrics) (t : Nat) :
    Bool × Metrics × Nat :=
  let timer_start := clock t
  let run_result := true
  let timer_stop := clock (t + 1)
  (run_result, update_metrics metrics tagInit timer_start timer_stop run_result,
    t + 2)

/-- `ProbePage.run(browser)`: run the base probe, then navigate to
`cfg.url`; a navigation exception is caught and leaves `page_success`
false, otherwise `page_success` is the page-load wait; title/URL checks
run only when `page_success`; the result is the conjunction, recorded
under `"page_load"`. -/
def probePageRun (cfg : ProbePageCfg) (env : BrowserEnv) (clock : Nat → Int)
    (metrics : Metrics) (t : Nat) : Bool × Metrics × Nat :=
  let r0 := probeAbstractRun clock metrics t
  let init_success := r0.1
  let m1 := r0.2.1
  let t1 := r0.2.2
  let timer_start := clock t1
  let page_success := if env.navigateOk then env.waitOk else false
  let title_success := if page_success then check_title cfg.expected_title env.title else false
  let url_success := if page_success then check_url cfg.expected_url env.url else false
  let run_result := init_success && page_success && title_success && url_success
  let timer_stop := clock (t1 + 1)
  (run_result, update_metrics m1 tagPageLoad timer_start timer_stop run_result,
    t1 + 2)

/-- WebDriver interactions performed by the form phase of
`ProbeForm.run`, in order. -/
inductive FormAction where
  | findField (name : String)
  | sendKeys (name value : String)
  | findSubmit (xpath : String)
  | click
deriving DecidableEq, Repr

/-- The field loop of `ProbeForm.run`: for each `(name, value)` pair in
order, `find_element_by_name(name)`; on `NoSuchElementException` the flag
is and-ed with `False` and the loop continues; on success the value is
sent into the field and the flag is and-ed with `True`.  Returns the final
flag and the interaction trace. -/
def inputLoop (env : BrowserEnv) : List (String × String) → Bool → Bool × List FormAction
  | [], acc => (acc, [])
  | (k, v) :: rest, acc =>
    if env.fieldExists k then
      let r := inputLoop env rest (acc && true)
      (r.1, FormAction.findField k :: FormAction.sendKeys k v :: r.2)
    else
      let r := inputLoop env rest (acc && false)
      (r.1, FormAction.findField k :: r.2)

/-- `ProbeForm.run(browser)`: run `ProbePage.run` first; the five form
flags start false.  Only when the page phase succeeded: set the input
flag true and iterate the input mapping (`self._input_params.items()`
raises `AttributeError` when `input_params` is `None`), then locate the
submit element (`submit_found` stays false when the locator misses, and
no click happens), click it (a timeout leaves `submit_success` false),
wait for the post-submit page, and check post-submit title/URL only when
that wait succeeded.  The result is the six-way conjunction, recorded
under `"form_submit"`.  Returns the result, metrics, next clock position
and the interaction trace. -/
def probeFormRun (cfg : ProbeFormCfg) (env : BrowserEnv) (clock : Nat → Int)
    (metrics : Metrics) (t : Nat) :
    Except PyError (Bool × Metrics × Nat × List FormAction) :=
  let rp := probePageRun cfg.toProbePageCfg env clock metrics t
  let page_success := rp.1
  let m1 := rp.2.1
  let t1 := rp.2.2
  let timer_start := clock t1
  if page_success then
    match cfg.input_params with
    | none => Except.error PyError.attributeError
    | some params =>
      let ri := inputLoop env params true
      let input_success := ri.1
      let submit_found := env.submitExists
      let submit_success :=
        if submit_found then (if env.clickOk then env.waitOk2 else false) else false
      let title_success :=
        if submit_success then check_title cfg.post_submit_title env.title2 else false
      let url_success :=
        if submit_success then check_url cfg.post_submit_url env.url2 else false
      let run_result := page_success && input_success && submit_found &&
        submit_success && title_success && url_success
      let timer_stop := clock (t1 + 1)
      let acts := ri.2 ++ [FormAction.findSubmit cfg.submit_element] ++
        (if submit_found then [FormAction.click] else [])
      Except.ok (run_result,
        update_metrics m1 tagFormSubmit timer_start timer_stop run_result,
        t1 + 2, acts)
  else
    let run_result := page_success && false && false && false && false && false
    let timer_stop := clock (t1 + 1)
    Except.ok (run_result,
      update_metrics m1 tagFormSubmit timer_start timer_stop run_result,
      t1 + 2, [])

/-- The `ProbeAbstract.metrics` property: `{self._probe_name: self._probe_metrics}`. -/
def metricsView (cfg : ProbeAbstractCfg) (metrics : Metrics) : String × Metrics :=
  (cfg.probe_name, metrics)

/-- Keyword arguments of `AzureKeyVault.__init__`. -/
structure VaultKwargs where
  vault_name : Option String := none
  app_id : Option String := none
  password : Option String := none
  tenant : Option String := none

/-- Fields of a constructed `AzureKeyVault` instance. -/
structure VaultState where
  vault_name : String
  app_id : Option String
  password : Option String
  tenant : Option String
  /-- true when Service Principal credentials were used, false for Managed Identity. -/
  service_principal_used : Bool
  vault_uri : String
deriving DecidableEq, Repr

/-- `AzureKeyVault.__init__(**kwargs)`: a missing `vault_name` raises
`ValueError` immediately; otherwise the instance is built, choosing
Service Principal credentials when `app_id` is given and Managed Identity
otherwise, with `vault_uri = "https://{name}.vault.azure.net/"`. -/
def azureKeyVaultConstruct (kwargs : VaultKwargs) : Except PyError VaultState :=
  match kwargs.vault_name with
  | none => Except.error PyError.valueError
  | some v =>
    Except.ok
      { vault_name := v
        app_id := kwargs.app_id
        password := kwargs.password
        tenant := kwargs.tenant
        service_principal_used := kwargs.app_id.isSome
        vault_uri := "https://" ++ v ++ ".vault.azure.net/" }

/-- `AzureKeyVault.get_secret(secret_name, secret_version)`: a missing
`secret_name` raises `ValueError` immediately; otherwise the
`KeyVaultClient` call is made (`backend`): a `KeyVaultErrorException`
(`Except.error`) is swallowed and `None` returned, a bundle is returned
as-is. -/
def get_secret (secret_name : Option String) (secret_version : String)
    (backend : Except Unit String) : Except PyError (Option String) :=
  match secret_name with
  | none => Except.error PyError.valueError
  | some _ =>
    match backend with
    | Except.error _ => Except.ok none
    | Except.ok v => Except.ok (some v)

/-- `AzureKeyVault.set_secret(secret_name, secret_value, content_type)`:
a missing `secret_name`, then a missing `secret_value`, raises
`ValueError` immediately; otherwise the `KeyVaultClient` call is made:
a `KeyVaultErrorException` is swallowed and `None` returned. -/
def set_secret (secret_name : Option String) (secret_value : Option String)
    (content_type : String) (backend : Except Unit String) :
    Except PyError (Option String) :=
  match secret_name with
  | none => Except.error PyError.valueError
  | some _ =>
    match secret_value with
    | none => Except.error PyError.valueError
    | some _ =>
      match backend with
      | Except.error _ => Except.ok none
      | Except.ok v => Except.ok (some v)

/-- The field name of `cfgW`. -/
def cfgWField : String := "q"

/-- The value sent for `cfgWField` by `cfgW`. -/
def cfgWValue : String := "x"


/-- The Page probe result in closed form over the environment: the
page-load flag is `navigateOk && waitOk`, and the title/URL checks are
evaluated only when it holds. -/
def pageRes (cfg : ProbePageCfg) (env : BrowserEnv) : Bool :=
  let page_ok := env.navigateOk && env.waitOk
  page_ok && (if page_ok then check_title cfg.expected_title env.title else false) &&
    (if page_ok then check_url cfg.expected_url env.url else false)

/-- The Form probe result in closed form over the environment, for an
input mapping `params`. -/
def formRes (cfg : ProbeFormCfg) (env : BrowserEnv)
    (params : List (String × String)) : Bool :=
  if pageRes cfg.toProbePageCfg env then
    (params.all fun kv => env.fieldExists kv.1) && env.submitExists &&
      (env.submitExists && env.clickOk && env.waitOk2) &&
      (if env.submitExists && env.clickOk && env.waitOk2 then
        check_title cfg.post_submit_title env.title2 else false) &&
      (if env.submitExists && env.clickOk && env.waitOk2 then
        check_url cfg.post_submit_url env.url2 else false)
  else false

/-- The WebDriver interaction trace of the form phase in closed form. -/
def formActs (cfg : ProbeFormCfg) (env : BrowserEnv)
    (params : List (String × String)) : List FormAction :=
  if pageRes cfg.toProbePageCfg env then
    (params.flatMap fun kv =>
      if env.fieldExists kv.1 then
        [FormAction.findField kv.1, FormAction.sendKeys kv.1 kv.2]
      else [FormAction.findField kv.1]) ++
    [FormAction.findSubmit cfg.submit_element] ++
    (if env.submitExists then [FormAction.click] else [])
  else []

/-- The record written by the most recent update carrying `tag` in a
sequence of `_update_metrics` calls, if any. -/
def lastUpdate (tag : String) : List (String × MetricsRecord) → Option MetricsRecord
  | [] => none
  | u :: rest =>
    match lastUpdate tag rest with
    | some r => some r
    | none => if u.1 = tag then some u.2 else none

/-! Concrete fixtures used by witness theorems. -/

/-- A fully cooperative WebDriver: navigation, waits, the field "q" and
the submit element all succeed. -/
def envW : BrowserEnv where
  navigateOk := true
  waitOk := true
  title := "Example Domain"
  url := "http://example.test/"
  fieldExists := fun k => k == "q"
  submitExists := true
  clickOk := true
  waitOk2 := true
  title2 := "Done"
  url2 := "http://example.test/done"

/-- A strictly increasing clock. -/
def clockW : Nat → Int := fun i => (i : Int)

/-- A form probe whose input mapping has the single field "q". -/
def cfgW : ProbeFormCfg where
  input_params := some [("q", "x")]

/-- Like `envW`, but only the field "a" resolves. -/
def envW2 : BrowserEnv := { envW with fieldExists := fun k => k == "a" }

/-- A form probe whose input mapping has the fields "a" and "b". -/
def cfgW2 : ProbeFormCfg where
  input_params := some [("a", "1"), ("b", "2")]

/-- Like `envW`, but the submit locator matches no element. -/
def envW3 : BrowserEnv := { envW with submitExists := false }

/-- A form probe with all constructor defaults, in particular
`input_params = None`. -/
def cfgW3 : ProbeFormCfg := {}

/-- Metrics of `probeFormRun cfgW envW clockW [] 0`. -/
def mW : Metrics :=
  [(tagInit, { success := true, timestamp_start := 0, timestamp_finish := 1, duration := 1 }),
   (tagPageLoad, { success := true, timestamp_start := 2, timestamp_finish := 3, duration := 1 }),
   (tagFormSubmit, { success := true, timestamp_start := 4, timestamp_finish := 5, duration := 1 })]

/-- Interaction trace of `probeFormRun cfgW envW clockW [] 0`. -/
def actsW : List FormAction :=
  [FormAction.findField cfgWField, FormAction.sendKeys cfgWField cfgWValue,
   FormAction.findSubmit cfgW.submit_element, FormAction.click]

/-- Metrics after running `cfgW` against `envW` a second time (the same
metrics a fresh run started at clock position 6 produces). -/
def mWb : Metrics :=
  [(tagInit, { success := true, timestamp_start := 6, timestamp_finish := 7, duration := 1 }),
   (tagPageLoad, { success := true, timestamp_start := 8, timestamp_finish := 9, duration := 1 }),
   (tagFormSubmit, { success := true, timestamp_start := 10, timestamp_finish := 11, duration := 1 })]

/-- Metrics of `probeFormRun cfgW2 envW2 clockW [] 0` (and of
`probeFormRun cfgW envW3 clockW [] 0`): the form phase fails. -/
def mW2 : Metrics :=
  [(tagInit, { success := true, timestamp_start := 0, timestamp_finish := 1, duration := 1 }),
   (tagPageLoad, { success := true, timestamp_start := 2, timestamp_finish := 3, duration := 1 }),
   (tagFormSubmit, { success := false, timestamp_start := 4, timestamp_finish := 5, duration := 1 })]

/-- Interaction trace of `probeFormRun cfgW2 envW2 clockW [] 0`. -/
def actsW2 : List FormAction :=
  [FormAction.findField ("a"), FormAction.sendKeys ("a") ("1"),
   FormAction.findField ("b"),
   FormAction.findSubmit cfgW2.submit_element, FormAction.click]

/-- Interaction trace of `probeFormRun cfgW envW3 clockW [] 0`: no click. -/
def actsW3 : List FormAction :=
  [FormAction.findField cfgWField, FormAction.sendKeys cfgWField cfgWValue,
   FormAction.findSubmit cfgW.submit_element]


/-! ## Helper lemmas -/

theorem listContains_iff (needle hs : List Char) :
    listContains needle hs = true ↔ needle <:+: hs := by
  induction hs with
  | nil => simp [listContains, List.isEmpty_iff, List.infix_nil]
  | cons c rest ih =>
    simp [listContains, Bool.or_eq_true, List.isPrefixOf_iff_prefix, ih,
      List.infix_cons_iff]

theorem strContains_iff (haystack needle : String) :
    strContains haystack needle = true ↔ needle.toList <:+: haystack.toList := by
  simp [strContains, listContains_iff]

/-! ## Claim theorems -/

/-- C3: `check_title` returns true on a `None` expectation; on a given
expectation it returns true exactly when the expectation occurs as a
substring of the current page title, and false otherwise (it is a total
function — nothing is thrown); `check_url` satisfies the same contract
against the current URL. -/
theorem check_title_check_url_contract (e t u : String) :
    check_title none t = true ∧ check_url none u = true ∧
    (check_title (some e) t = true ↔ e.toList <:+: t.toList) ∧
    (check_url (some e) u = true ↔ e.toList <:+: u.toList) := by
  refine ⟨rfl, rfl, ?_, ?_⟩ <;> simp [check_title, check_url, strContains_iff]

/-- C7 counterexample: constructing the session handle with capabilities
naming the unrecognized browser kind "safari" does not return normally —
the `opts.headless` line raises `UnboundLocalError` out of the
constructor, so construction is not exception-free on every failure. -/
theorem browserConstruct_unrecognized_raises :
    (browserConstruct ("safari") true).isOk = false := by decide

/-- C7 amended: for a recognized browser kind ("chrome" or "firefox") the
constructor never propagates an exception — a connection failure is
swallowed and leaves the session handle null, a successful connection
stores the live session — while any unrecognized browser kind makes the
constructor raise before attempting a connection. -/
theorem browserConstruct_amended (name : String) (connectOk : Bool)
    (h : name = "chrome" ∨ name = "firefox") :
    browserConstruct name connectOk =
      Except.ok (if connectOk then some () else none) ∧
    ∀ other : String, ¬(other = "chrome" ∨ other = "firefox") →
      browserConstruct other connectOk = Except.error PyError.unboundLocalError := by
  constructor
  · simp only [browserConstruct, if_pos h]
    cases connectOk <;> rfl
  · intro other ho
    simp only [browserConstruct, if_neg ho]

/-- C7 amended, witness: with "chrome" capabilities and a failing remote
connection, construction returns normally with a null handle. -/
theorem browserConstruct_amended_witness :
    browserConstruct ("chrome") false = Except.ok none :=
  (browserConstruct_amended ("chrome") false (Or.inl rfl)).1

/-- C9: missing mandatory parameters raise immediately: constructing the
Key Vault client without `vault_name` raises `ValueError`, as do
`get_secret` without a secret name and `set_secret` without a secret name
or without a secret value; by contrast a Key Vault service error in
`get_secret`/`set_secret` is swallowed into a logged `None` result rather
than raised. -/
theorem azureKeyVault_config_errors (kwargs : VaultKwargs)
    (n v ver ct : String) (backend : Except Unit String) :
    azureKeyVaultConstruct { kwargs with vault_name := none } =
      Except.error PyError.valueError ∧
    get_secret none ver backend = Except.error PyError.valueError ∧
    set_secret none (some v) ct backend = Except.error PyError.valueError ∧
    set_secret (some n) none ct backend = Except.error PyError.valueError ∧
    get_secret (some n) ver (Except.error ()) = Except.ok none ∧
    set_secret (some n) (some v) ct (Except.error ()) = Except.ok none ∧
    ∀ name, (azureKeyVaultConstruct { kwargs with vault_name := some name }).isOk = true := by
  refine ⟨rfl, rfl, rfl, rfl, rfl, rfl, fun name => rfl⟩
theorem inputLoop_fst (env : BrowserEnv) (ps : List (String × String)) (acc : Bool) :
    (inputLoop env ps acc).1 = (acc && ps.all fun kv => env.fieldExists kv.1) := by
  induction ps generalizing acc with
  | nil => simp [inputLoop]
  | cons kv rest ih =>
    obtain ⟨k, v⟩ := kv
    by_cases h : env.fieldExists k
    · simp [inputLoop, h, ih, Bool.and_assoc]
    · simp [inputLoop, h, ih]

theorem inputLoop_snd (env : BrowserEnv) (ps : List (String × String)) (acc : Bool) :
    (inputLoop env ps acc).2 = ps.flatMap fun kv =>
      if env.fieldExists kv.1 then
        [FormAction.findField kv.1, FormAction.sendKeys kv.1 kv.2]
      else
        [FormAction.findField kv.1] := by
  induction ps generalizing acc with
  | nil => simp [inputLoop]
  | cons kv rest ih =>
    obtain ⟨k, v⟩ := kv
    by_cases h : env.fieldExists k
    · simp [inputLoop, h, ih]
    · simp [inputLoop, h, ih]

theorem probeFormRun_pageFail (cfg : ProbeFormCfg) (env : BrowserEnv)
    (clock : Nat → Int) (metrics : Metrics) (t : Nat)
    (h : (probePageRun cfg.toProbePageCfg env clock metrics t).1 = false) :
    probeFormRun cfg env clock metrics t =
      Except.ok (false,
        update_metrics (probePageRun cfg.toProbePageCfg env clock metrics t).2.1
          tagFormSubmit
          (clock (probePageRun cfg.toProbePageCfg env clock metrics t).2.2)
          (clock ((probePageRun cfg.toProbePageCfg env clock metrics t).2.2 + 1))
          false,
        (probePageRun cfg.toProbePageCfg env clock metrics t).2.2 + 2, []) := by
  simp only [probeFormRun, h]
  simp

theorem probeFormRun_noneError (cfg : ProbeFormCfg) (env : BrowserEnv)
    (clock : Nat → Int) (metrics : Metrics) (t : Nat)
    (hpage : (probePageRun cfg.toProbePageCfg env clock metrics t).1 = true)
    (hnone : cfg.input_params = none) :
    probeFormRun cfg env clock metrics t = Except.error PyError.attributeError := by
  simp only [probeFormRun, hpage, hnone]
  simp

theorem probeFormRun_pageOk (cfg : ProbeFormCfg) (env : BrowserEnv)
    (clock : Nat → Int) (metrics : Metrics) (t : Nat)
    (params : List (String × String))
    (hpage : (probePageRun cfg.toProbePageCfg env clock metrics t).1 = true)
    (hparams : cfg.input_params = some params) :
    probeFormRun cfg env clock metrics t =
      Except.ok (
        ((inputLoop env params true).1 && env.submitExists &&
          (env.submitExists && env.clickOk && env.waitOk2) &&
          (if env.submitExists && env.clickOk && env.waitOk2 then
            check_title cfg.post_submit_title env.title2 else false) &&
          (if env.submitExists && env.clickOk && env.waitOk2 then
            check_url cfg.post_submit_url env.url2 else false)),
        update_metrics (probePageRun cfg.toProbePageCfg env clock metrics t).2.1
          tagFormSubmit
          (clock (probePageRun cfg.toProbePageCfg env clock metrics t).2.2)
          (clock ((probePageRun cfg.toProbePageCfg env clock metrics t).2.2 + 1))
          ((inputLoop env params true).1 && env.submitExists &&
            (env.submitExists && env.clickOk && env.waitOk2) &&
            (if env.submitExists && env.clickOk && env.waitOk2 then
              check_title cfg.post_submit_title env.title2 else false) &&
            (if env.submitExists && env.clickOk && env.waitOk2 then
              check_url cfg.post_submit_url env.url2 else false)),
        (probePageRun cfg.toProbePageCfg env clock metrics t).2.2 + 2,
        (inputLoop env params true).2 ++ [FormAction.findSubmit cfg.submit_element] ++
          (if env.submitExists then [FormAction.click] else [])) := by
  simp only [probeFormRun, hpage, hparams]
  cases hs : env.submitExists <;> cases hc : env.clickOk <;> cases hw : env.waitOk2 <;>
    simp
theorem probePageRun_eq (cfg : ProbePageCfg) (env : BrowserEnv)
    (clock : Nat → Int) (ms : Metrics) (t : Nat) :
    probePageRun cfg env clock ms t =
      (pageRes cfg env,
        update_metrics (update_metrics ms tagInit (clock t) (clock (t + 1)) true)
          tagPageLoad (clock (t + 2)) (clock (t + 3)) (pageRes cfg env),
        t + 4) := by
  simp only [probePageRun, probeAbstractRun, pageRes]
  cases hn : env.navigateOk <;> cases hw : env.waitOk <;> simp

theorem probePageRun_fst (cfg : ProbePageCfg) (env : BrowserEnv)
    (clock : Nat → Int) (ms : Metrics) (t : Nat) :
    (probePageRun cfg env clock ms t).1 = pageRes cfg env := by
  rw [probePageRun_eq]

theorem probeFormRun_shape (cfg : ProbeFormCfg) (env : BrowserEnv)
    (clock : Nat → Int) (ms : Metrics) (t : Nat)
    (params : List (String × String))
    (hparams : cfg.input_params = some params) :
    probeFormRun cfg env clock ms t =
      Except.ok (formRes cfg env params,
        update_metrics
          (update_metrics (update_metrics ms tagInit (clock t) (clock (t + 1)) true)
            tagPageLoad (clock (t + 2)) (clock (t + 3))
            (pageRes cfg.toProbePageCfg env))
          tagFormSubmit (clock (t + 4)) (clock (t + 5)) (formRes cfg env params),
        t + 6, formActs cfg env params) := by
  have harith : t + 4 + 1 = t + 5 := by omega
  cases hpage : pageRes cfg.toProbePageCfg env
  · rw [probeFormRun_pageFail cfg env clock ms t
      (by rw [probePageRun_fst, hpage])]
    rw [probePageRun_eq, hpage]
    simp [formRes, formActs, hpage, harith]
  · rw [probeFormRun_pageOk cfg env clock ms t params
      (by rw [probePageRun_fst, hpage]) hparams]
    rw [probePageRun_eq, hpage]
    simp [formRes, formActs, hpage, harith, inputLoop_fst, inputLoop_snd]
/-- C1: whenever `ProbeForm.run` executes to completion, the returned
boolean is the conjunction of the inherited `ProbePage.run` result, the
input flag (every field of the mapping resolved), the submit-found flag,
the submit flag (found, clicked without timeout, post-submit wait
succeeded) and the post-submit title/URL checks (evaluated only when the
submit flag holds); and whenever the page phase fails, no WebDriver form
interaction is performed and the run returns false. -/
theorem probeFormRun_result (cfg : ProbeFormCfg) (env : BrowserEnv)
    (clock : Nat → Int) (metrics : Metrics) (t : Nat)
    (res : Bool) (m : Metrics) (t2 : Nat) (acts : List FormAction)
    (hrun : probeFormRun cfg env clock metrics t = Except.ok (res, m, t2, acts)) :
    (∀ params, cfg.input_params = some params →
      res = ((probePageRun cfg.toProbePageCfg env clock metrics t).1 &&
        (params.all fun kv => env.fieldExists kv.1) &&
        env.submitExists &&
        (env.submitExists && env.clickOk && env.waitOk2) &&
        (if env.submitExists && env.clickOk && env.waitOk2 then
          check_title cfg.post_submit_title env.title2 else false) &&
        (if env.submitExists && env.clickOk && env.waitOk2 then
          check_url cfg.post_submit_url env.url2 else false))) ∧
    ((probePageRun cfg.toProbePageCfg env clock metrics t).1 = false →
      acts = [] ∧ res = false) := by
  constructor
  · intro params hparams
    cases hpage : (probePageRun cfg.toProbePageCfg env clock metrics t).1 with
    | false =>
      rw [probeFormRun_pageFail cfg env clock metrics t hpage] at hrun
      simp only [Except.ok.injEq, Prod.mk.injEq] at hrun
      obtain ⟨hres, -, -, -⟩ := hrun
      simp [← hres]
    | true =>
      rw [probeFormRun_pageOk cfg env clock metrics t params hpage hparams] at hrun
      simp only [Except.ok.injEq, Prod.mk.injEq] at hrun
      obtain ⟨hres, -, -, -⟩ := hrun
      rw [← hres, inputLoop_fst]
  · intro hpage
    rw [probeFormRun_pageFail cfg env clock metrics t hpage] at hrun
    simp only [Except.ok.injEq, Prod.mk.injEq] at hrun
    obtain ⟨hres, -, -, hacts⟩ := hrun
    exact ⟨hacts.symm, hres.symm⟩

/-- C1 witness: with a cooperative WebDriver and the one-field mapping of
`cfgW`, the run returns exactly the conjunction, which is true. -/
theorem probeFormRun_result_witness :
    (true : Bool) = ((probePageRun cfgW.toProbePageCfg envW clockW [] 0).1 &&
      ([(cfgWField, cfgWValue)].all fun kv => envW.fieldExists kv.1) &&
      envW.submitExists &&
      (envW.submitExists && envW.clickOk && envW.waitOk2) &&
      (if envW.submitExists && envW.clickOk && envW.waitOk2 then
        check_title cfgW.post_submit_title envW.title2 else false) &&
      (if envW.submitExists && envW.clickOk && envW.waitOk2 then
        check_url cfgW.post_submit_url envW.url2 else false)) :=
  (probeFormRun_result cfgW envW clockW [] 0 true mW 6 actsW rfl).1
    [(cfgWField, cfgWValue)] rfl

/-- C4: when the page phase succeeded and some field of the input mapping
does not resolve to an element, every field of the mapping is still
looked up, every resolving field still receives its value, the input flag
ends false, and the run returns false. -/
theorem probeFormRun_missing_field (cfg : ProbeFormCfg) (env : BrowserEnv)
    (clock : Nat → Int) (metrics : Metrics) (t : Nat)
    (params : List (String × String)) (k0 v0 : String)
    (res : Bool) (m : Metrics) (t2 : Nat) (acts : List FormAction)
    (hparams : cfg.input_params = some params)
    (hpage : (probePageRun cfg.toProbePageCfg env clock metrics t).1 = true)
    (hmem : (k0, v0) ∈ params)
    (hmiss : env.fieldExists k0 = false)
    (hrun : probeFormRun cfg env clock metrics t = Except.ok (res, m, t2, acts)) :
    (∀ k v, (k, v) ∈ params → FormAction.findField k ∈ acts) ∧
    (∀ k v, (k, v) ∈ params → env.fieldExists k = true →
      FormAction.sendKeys k v ∈ acts) ∧
    (inputLoop env params true).1 = false ∧
    res = false := by
  rw [probeFormRun_pageOk cfg env clock metrics t params hpage hparams] at hrun
  simp only [Except.ok.injEq, Prod.mk.injEq] at hrun
  obtain ⟨hres, -, -, hacts⟩ := hrun
  have hloop : (inputLoop env params true).1 = false := by
    rw [inputLoop_fst]
    simp only [Bool.true_and, List.all_eq_false]
    exact ⟨(k0, v0), hmem, by simp [hmiss]⟩
  refine ⟨?_, ?_, hloop, ?_⟩
  · intro k v hkv
    rw [← hacts]
    simp only [List.mem_append, inputLoop_snd, List.mem_flatMap]
    left; left
    refine ⟨(k, v), hkv, ?_⟩
    by_cases hf : env.fieldExists k <;> simp [hf]
  · intro k v hkv hf
    rw [← hacts]
    simp only [List.mem_append, inputLoop_snd, List.mem_flatMap]
    left; left
    exact ⟨(k, v), hkv, by simp [hf]⟩
  · rw [← hres, hloop]
    simp

/-- C4 witness: with the mapping {"a": "1", "b": "2"} where only "a"
resolves, both fields are looked up, "a" is populated, the input flag is
false and the run returns false. -/
theorem probeFormRun_missing_field_witness :
    (∀ k v, (k, v) ∈ [(("a" : String), ("1" : String)), (("b"), ("2"))] →
      FormAction.findField k ∈ actsW2) ∧
    (∀ k v, (k, v) ∈ [(("a" : String), ("1" : String)), (("b"), ("2"))] →
      envW2.fieldExists k = true → FormAction.sendKeys k v ∈ actsW2) ∧
    (inputLoop envW2 [(("a"), ("1")), (("b"), ("2"))] true).1 = false ∧
    (false : Bool) = false :=
  probeFormRun_missing_field cfgW2 envW2 clockW [] 0
    [(("a"), ("1")), (("b"), ("2"))] ("b") ("2") false mW2 6 actsW2
    rfl rfl (by simp) rfl rfl

/-- C5: when the submit-control XPath locator matches no element, no
click is ever attempted and the run returns false. -/
theorem probeFormRun_submit_missing (cfg : ProbeFormCfg) (env : BrowserEnv)
    (clock : Nat → Int) (metrics : Metrics) (t : Nat)
    (res : Bool) (m : Metrics) (t2 : Nat) (acts : List FormAction)
    (hmiss : env.submitExists = false)
    (hrun : probeFormRun cfg env clock metrics t = Except.ok (res, m, t2, acts)) :
    FormAction.click ∉ acts ∧ res = false := by
  cases hpage : (probePageRun cfg.toProbePageCfg env clock metrics t).1 with
  | false =>
    rw [probeFormRun_pageFail cfg env clock metrics t hpage] at hrun
    simp only [Except.ok.injEq, Prod.mk.injEq] at hrun
    obtain ⟨hres, -, -, hacts⟩ := hrun
    rw [← hacts, ← hres]
    simp
  | true =>
    cases hparams : cfg.input_params with
    | none =>
      rw [probeFormRun_noneError cfg env clock metrics t hpage hparams] at hrun
      cases hrun
    | some params =>
      rw [probeFormRun_pageOk cfg env clock metrics t params hpage hparams] at hrun
      simp only [Except.ok.injEq, Prod.mk.injEq] at hrun
      obtain ⟨hres, -, -, hacts⟩ := hrun
      constructor
      · rw [← hacts]
        simp only [hmiss, List.mem_append, inputLoop_snd, List.mem_flatMap]
        rintro ((⟨⟨k, v⟩, -, hin⟩ | hin) | hin)
        · by_cases hf : env.fieldExists k <;> simp [hf] at hin
        · simp at hin
        · simp at hin
      · rw [← hres, hmiss]
        simp

/-- C5 witness: with a missing submit element, the trace of the run has
no click and the result is false. -/
theorem probeFormRun_submit_missing_witness :
    FormAction.click ∉ actsW3 ∧ (false : Bool) = false :=
  probeFormRun_submit_missing cfgW envW3 clockW [] 0 false mW2 6 actsW3 rfl rfl

/-- C10: when the page phase succeeds and `input_params` kept its `None`
default, `ProbeForm.run` raises (`None.items()` fails with
`AttributeError`) instead of returning a boolean; with a genuine mapping
the run always returns a boolean. -/
theorem probeFormRun_default_input_raises (cfg : ProbeFormCfg) (env : BrowserEnv)
    (clock : Nat → Int) (metrics : Metrics) (t : Nat)
    (hpage : (probePageRun cfg.toProbePageCfg env clock metrics t).1 = true) :
    (cfg.input_params = none →
      probeFormRun cfg env clock metrics t = Except.error PyError.attributeError) ∧
    (∀ params, cfg.input_params = some params →
      (probeFormRun cfg env clock metrics t).isOk = true) := by
  constructor
  · exact probeFormRun_noneError cfg env clock metrics t hpage
  · intro params hparams
    rw [probeFormRun_pageOk cfg env clock metrics t params hpage hparams]
    rfl

/-- C10 witness: the all-defaults form probe, on a page that loads and
checks out, raises `AttributeError` out of `run`. -/
theorem probeFormRun_default_input_raises_witness :
    probeFormRun cfgW3 envW clockW [] 0 = Except.error PyError.attributeError :=
  (probeFormRun_default_input_raises cfgW3 envW clockW [] 0 rfl).1 rfl
theorem dict_two_tags (r0 r1 : MetricsRecord) :
    dictInsert (dictInsert [] tagInit r0) tagPageLoad r1 =
      [(tagInit, r0), (tagPageLoad, r1)] := by
  simp [dictInsert, tagInit, tagPageLoad]

theorem dict_three_tags (r0 r1 r2 : MetricsRecord) :
    dictInsert (dictInsert (dictInsert [] tagInit r0) tagPageLoad r1)
      tagFormSubmit r2 =
      [(tagInit, r0), (tagPageLoad, r1), (tagFormSubmit, r2)] := by
  simp [dictInsert, tagInit, tagPageLoad, tagFormSubmit]

theorem dict_three_tags_over (a b c r0 r1 r2 : MetricsRecord) :
    dictInsert (dictInsert (dictInsert
        [(tagInit, a), (tagPageLoad, b), (tagFormSubmit, c)]
        tagInit r0) tagPageLoad r1) tagFormSubmit r2 =
      [(tagInit, r0), (tagPageLoad, r1), (tagFormSubmit, r2)] := by
  simp [dictInsert, tagInit, tagPageLoad, tagFormSubmit]

/-- C8: starting a probe with a fresh metrics ledger and a monotone
clock, each variant's run leaves exactly one record per composed tag
("init" for the base probe; plus "page_load" for the Page probe; plus
"form_submit" for the Form probe), exposed by the metrics accessor under
the probe's name; every record stores
`duration = timestamp_finish - timestamp_start ≥ 0`, and the success
field of the variant's own final tag equals the returned boolean. -/
theorem probe_metrics_contract (cfgF : ProbeFormCfg) (env : BrowserEnv)
    (clock : Nat → Int) (t : Nat) (params : List (String × String))
    (hmono : ∀ i, clock i ≤ clock (i + 1))
    (hparams : cfgF.input_params = some params) :
    (∃ rec0,
      (probeAbstractRun clock [] t).2.1 = [(tagInit, rec0)] ∧
      metricsView cfgF.toProbeAbstractCfg (probeAbstractRun clock [] t).2.1 =
        (cfgF.probe_name, [(tagInit, rec0)]) ∧
      rec0.duration = rec0.timestamp_finish - rec0.timestamp_start ∧
      0 ≤ rec0.duration ∧
      rec0.success = (probeAbstractRun clock [] t).1) ∧
    (∃ rec0 rec1,
      (probePageRun cfgF.toProbePageCfg env clock [] t).2.1 =
        [(tagInit, rec0), (tagPageLoad, rec1)] ∧
      rec0.duration = rec0.timestamp_finish - rec0.timestamp_start ∧
      0 ≤ rec0.duration ∧
      rec1.duration = rec1.timestamp_finish - rec1.timestamp_start ∧
      0 ≤ rec1.duration ∧
      rec1.success = (probePageRun cfgF.toProbePageCfg env clock [] t).1) ∧
    (∀ res m t2 acts,
      probeFormRun cfgF env clock [] t = Except.ok (res, m, t2, acts) →
      ∃ rec0 rec1 rec2,
        m = [(tagInit, rec0), (tagPageLoad, rec1), (tagFormSubmit, rec2)] ∧
        metricsView cfgF.toProbeAbstractCfg m = (cfgF.probe_name, m) ∧
        rec0.duration = rec0.timestamp_finish - rec0.timestamp_start ∧
        0 ≤ rec0.duration ∧
        rec1.duration = rec1.timestamp_finish - rec1.timestamp_start ∧
        0 ≤ rec1.duration ∧
        rec2.duration = rec2.timestamp_finish - rec2.timestamp_start ∧
        0 ≤ rec2.duration ∧
        rec2.success = res) := by
  refine ⟨?_, ?_, ?_⟩
  · refine ⟨⟨true, clock t, clock (t + 1), clock (t + 1) - clock t⟩,
      ?_, rfl, rfl, sub_nonneg.mpr (hmono t), rfl⟩
    rfl
  · refine ⟨⟨true, clock t, clock (t + 1), clock (t + 1) - clock t⟩,
      ⟨pageRes cfgF.toProbePageCfg env, clock (t + 2), clock (t + 3),
        clock (t + 3) - clock (t + 2)⟩, ?_, rfl,
      sub_nonneg.mpr (hmono t), rfl, sub_nonneg.mpr (hmono (t + 2)), ?_⟩
    · rw [probePageRun_eq]
      simp only [update_metrics]
      exact dict_two_tags _ _
    · rw [probePageRun_fst]
  · intro res m t2 acts hrun
    rw [probeFormRun_shape cfgF env clock [] t params hparams] at hrun
    simp only [Except.ok.injEq, Prod.mk.injEq] at hrun
    obtain ⟨hres, hm, -, -⟩ := hrun
    refine ⟨⟨true, clock t, clock (t + 1), clock (t + 1) - clock t⟩,
      ⟨pageRes cfgF.toProbePageCfg env, clock (t + 2), clock (t + 3),
        clock (t + 3) - clock (t + 2)⟩,
      ⟨res, clock (t + 4), clock (t + 5), clock (t + 5) - clock (t + 4)⟩,
      ?_, rfl, rfl, sub_nonneg.mpr (hmono t), rfl,
      sub_nonneg.mpr (hmono (t + 2)), rfl, sub_nonneg.mpr (hmono (t + 4)), rfl⟩
    rw [← hm, ← hres]
    simp only [update_metrics]
    exact dict_three_tags _ _ _

/-- C8 witness: the concrete form run `probeFormRun cfgW envW clockW [] 0`
returns true and leaves exactly the three tagged records of `mW`, with
nonnegative durations and a final-tag success equal to the result. -/
theorem probe_metrics_contract_witness :
    ∃ rec0 rec1 rec2,
      mW = [(tagInit, rec0), (tagPageLoad, rec1), (tagFormSubmit, rec2)] ∧
      metricsView cfgW.toProbeAbstractCfg mW = (cfgW.probe_name, mW) ∧
      rec0.duration = rec0.timestamp_finish - rec0.timestamp_start ∧
      0 ≤ rec0.duration ∧
      rec1.duration = rec1.timestamp_finish - rec1.timestamp_start ∧
      0 ≤ rec1.duration ∧
      rec2.duration = rec2.timestamp_finish - rec2.timestamp_start ∧
      0 ≤ rec2.duration ∧
      rec2.success = true :=
  (probe_metrics_contract cfgW envW clockW 0 [(cfgWField, cfgWValue)]
    (fun i => by simp [clockW]) rfl).2.2 true mW 6 actsW rfl
theorem dictLookup_dictInsert {α : Type} (m : List (String × α)) (k k0 : String)
    (v : α) :
    dictLookup (dictInsert m k v) k0 = if k0 = k then some v else dictLookup m k0 := by
  induction m with
  | nil =>
    by_cases h : k0 = k
    · simp [dictInsert, dictLookup, h]
    · simp [dictInsert, dictLookup, h, Ne.symm h]
  | cons kv rest ih =>
    obtain ⟨k1, v1⟩ := kv
    by_cases h1 : k1 = k
    · subst h1
      by_cases h0 : k0 = k1
      · subst h0; simp [dictInsert, dictLookup]
      · simp [dictInsert, dictLookup, h0, Ne.symm h0]
    · by_cases h0 : k0 = k1
      · subst h0
        simp [dictInsert, dictLookup, h1, Ne.symm h1]
      · simp [dictInsert, dictLookup, h1, Ne.symm h0, ih]

theorem mem_keys_dictInsert {α : Type} (m : List (String × α)) (k : String)
    (v : α) (x : String) :
    x ∈ (dictInsert m k v).map Prod.fst ↔ x ∈ m.map Prod.fst ∨ x = k := by
  induction m with
  | nil => simp [dictInsert]
  | cons kv rest ih =>
    obtain ⟨k1, v1⟩ := kv
    by_cases h : k1 = k
    · subst h
      simp [dictInsert]
      tauto
    · simp [dictInsert, h, ih]
      tauto

theorem keys_nodup_dictInsert {α : Type} (m : List (String × α)) (k : String)
    (v : α) (h : (m.map Prod.fst).Nodup) :
    ((dictInsert m k v).map Prod.fst).Nodup := by
  induction m with
  | nil => simp [dictInsert]
  | cons kv rest ih =>
    obtain ⟨k1, v1⟩ := kv
    simp only [List.map_cons, List.nodup_cons] at h
    obtain ⟨hk1, hrest⟩ := h
    by_cases hh : k1 = k
    · subst hh
      simp [dictInsert, hk1, hrest]
    · simp only [dictInsert, if_neg hh, List.map_cons, List.nodup_cons]
      refine ⟨?_, ih hrest⟩
      rw [mem_keys_dictInsert]
      rintro (hin | hin)
      · exact hk1 hin
      · exact hh hin

theorem foldl_dictInsert_lookup (us : List (String × MetricsRecord))
    (m : Metrics) (tag : String) :
    dictLookup (us.foldl (fun acc u => dictInsert acc u.1 u.2) m) tag =
      (match lastUpdate tag us with
       | some r => some r
       | none => dictLookup m tag) := by
  induction us generalizing m with
  | nil => simp [lastUpdate]
  | cons u rest ih =>
    rw [List.foldl_cons, ih]
    cases hl : lastUpdate tag rest with
    | some r => simp [lastUpdate, hl]
    | none =>
      simp only [lastUpdate, hl, dictLookup_dictInsert]
      by_cases h : tag = u.1
      · simp [h]
      · simp [h, Ne.symm h]

theorem foldl_dictInsert_nodup (us : List (String × MetricsRecord)) (m : Metrics)
    (h : (m.map Prod.fst).Nodup) :
    ((us.foldl (fun acc u => dictInsert acc u.1 u.2) m).map Prod.fst).Nodup := by
  induction us generalizing m with
  | nil => exact h
  | cons u rest ih => exact ih _ (keys_nodup_dictInsert _ _ _ h)

/-- C6: the metrics ledger has overwrite semantics.  Any sequence of
`_update_metrics` calls starting from the empty ledger leaves, for each
tag, exactly the record of the most recent call carrying that tag, and
the ledger's keys stay duplicate-free (one record per tag).  In
particular, running the same form probe a second time from the state the
first run left produces exactly the metrics a fresh run at that clock
position would — records are replaced, never summed or appended. -/
theorem update_metrics_overwrite (us : List (String × MetricsRecord)) (tag : String) :
    dictLookup (us.foldl (fun acc u => dictInsert acc u.1 u.2) []) tag =
      lastUpdate tag us ∧
    ((us.foldl (fun acc u => dictInsert acc u.1 u.2) []).map Prod.fst).Nodup ∧
    (∀ (cfg : ProbeFormCfg) (env : BrowserEnv) (clock : Nat → Int) (t : Nat)
      (params : List (String × String))
      (res1 res2 res3 : Bool) (m1 m2 m3 : Metrics) (t1 t2 t3 : Nat)
      (a1 a2 a3 : List FormAction),
      cfg.input_params = some params →
      probeFormRun cfg env clock [] t = Except.ok (res1, m1, t1, a1) →
      probeFormRun cfg env clock m1 t1 = Except.ok (res2, m2, t2, a2) →
      probeFormRun cfg env clock [] t1 = Except.ok (res3, m3, t3, a3) →
      m2 = m3 ∧ res2 = res3) := by
  refine ⟨?_, ?_, ?_⟩
  · rw [foldl_dictInsert_lookup]
    cases lastUpdate tag us <;> simp [dictLookup]
  · exact foldl_dictInsert_nodup us [] (by simp)
  · intro cfg env clock t params res1 res2 res3 m1 m2 m3 t1 t2 t3 a1 a2 a3
      hparams h1 h2 h3
    rw [probeFormRun_shape cfg env clock [] t params hparams] at h1
    simp only [Except.ok.injEq, Prod.mk.injEq] at h1
    obtain ⟨-, hm1, -, -⟩ := h1
    rw [probeFormRun_shape cfg env clock m1 t1 params hparams] at h2
    simp only [Except.ok.injEq, Prod.mk.injEq] at h2
    obtain ⟨hres2, hm2, -, -⟩ := h2
    rw [probeFormRun_shape cfg env clock [] t1 params hparams] at h3
    simp only [Except.ok.injEq, Prod.mk.injEq] at h3
    obtain ⟨hres3, hm3, -, -⟩ := h3
    refine ⟨?_, by rw [← hres2, ← hres3]⟩
    rw [← hm2, ← hm3, ← hm1]
    simp only [update_metrics, dict_three_tags, dict_three_tags_over]

/-- C6 witness: running `cfgW` against `envW` twice in a row leaves the
same ledger a fresh run at the same clock position leaves. -/
theorem update_metrics_overwrite_witness :
    mWb = mWb ∧ (true : Bool) = true :=
  (update_metrics_overwrite [] tagInit).2.2 cfgW envW clockW 0
    [(cfgWField, cfgWValue)] true true true mW mWb mWb 6 12 12
    actsW actsW actsW rfl rfl rfl rfl
/-- C2: the Page probe result is the conjunction of the base result, the
page-load flag (wait result, guarded by navigation not raising), and the
title/URL checks, where the title/URL checks are evaluated only when the
page-load flag is true and default to false otherwise. -/
theorem probePageRun_result (cfg : ProbePageCfg) (env : BrowserEnv)
    (clock : Nat → Int) (metrics : Metrics) (t : Nat) :
    (probePageRun cfg env clock metrics t).1 =
      ((probeAbstractRun clock metrics t).1 &&
        (env.navigateOk && env.waitOk) &&
        (if env.navigateOk && env.waitOk then
          check_title cfg.expected_title env.title else false) &&
        (if env.navigateOk && env.waitOk then
          check_url cfg.expected_url env.url else false)) := by
  simp only [probePageRun, probeAbstractRun]
  cases hn : env.navigateOk <;> cases hw : env.waitOk <;> simp
